import Mathlib

/-!
Shallow embedding of `src/gsap-animation-library.js` (class `GSAPAnimationLibrary`).

JavaScript objects are modelled as association lists in insertion order where a
later entry for a key shadows an earlier one, so object spread `\x7b...a, ...b\x7d`
is list append and property lookup finds the last matching entry.  The GSAP
engine itself is third-party code outside this repository; following the spec it
is treated as an opaque capability and modelled as explicit state: `gsap.to`
records a tween, `gsap.set` records a set call, `gsap.timeline` records a
timeline, `timeline.to` appends a step, `kill` marks a handle killed.
Numbers are rationals; JavaScript string-to-number coercion (e.g. unary minus
on a numeric string) is not modelled — non-numeric operands of negation map to
`nan`, and every claim below only exercises numeric option values.
-/

namespace GSAPLib

/-- A JavaScript value as used by the library: numbers, strings, callbacks
(identified by a tag), `null`/`undefined`-like absence is an `Option` at use
sites, booleans, and NaN. -/
inductive Value where
  | num (q : ℚ)
  | str (s : String)
  | fn (tag : ℕ)
  | nullV
  | boolV (b : Bool)
  | nan
deriving DecidableEq

/-- JavaScript truthiness of a value. -/
def Value.truthy : Value → Bool
  | .num q => q ≠ 0
  | .str s => s ≠ ""
  | .fn _ => true
  | .nullV => false
  | .boolV b => b
  | .nan => false

/-- JavaScript unary minus as used on `distance` and `intensity` (numeric
inputs only; string coercion is not modelled). -/
def Value.negV : Value → Value
  | .num q => .num (-q)
  | .nullV => .num 0
  | .boolV b => .num (if b then -1 else 0)
  | _ => .nan

/-- A JavaScript object: key/value pairs in insertion order, later wins. -/
abbrev Obj := List (String × Value)

/-- Property lookup: the last entry for the key, `none` for `undefined`. -/
def Obj.get (o : Obj) (k : String) : Option Value :=
  (o.reverse.find? (fun p => p.1 == k)).map Prod.snd

/-- JavaScript truthiness of a possibly-absent value. -/
def truthyO : Option Value → Bool
  | none => false
  | some v => v.truthy

/-- The `a.k || d` idiom: the stored value if present and truthy, else `d`. -/
def Obj.orDefault (o : Obj) (k : String) (d : Value) : Value :=
  match o.get k with
  | some v => if v.truthy then v else d
  | none => d

/-- One engine tween, as created by `gsap.to(targets, config)`. -/
structure Tween where
  id : ℕ
  targets : List ℕ
  config : Obj
  killed : Bool
deriving DecidableEq

/-- One step of an engine timeline, as appended by `tl.to(target, config)`. -/
structure TLStep where
  target : ℕ
  config : Obj
deriving DecidableEq

/-- One engine timeline, as created by `gsap.timeline(opts)`.  `log` records
the control operations (play/pause/reverse/restart) invoked on it. -/
structure Timeline where
  id : ℕ
  opts : Obj
  steps : List TLStep
  log : List String
  killed : Bool
deriving DecidableEq

/-- The observable state of the animation engine (the host environment). -/
structure EngineState where
  tweens : List Tween
  timelines : List Timeline
  sets : List (List ℕ × Obj)
  nextId : ℕ
deriving DecidableEq

/-- `gsap.to(targets, config)`: create a tween, return its id. -/
def EngineState.gsapTo (e : EngineState) (targets : List ℕ) (config : Obj) :
    ℕ × EngineState :=
  (e.nextId,
   { e with tweens := e.tweens ++ [⟨e.nextId, targets, config, false⟩],
            nextId := e.nextId + 1 })

/-- `gsap.set(targets, props)`: immediately apply properties (recorded). -/
def EngineState.gsapSet (e : EngineState) (targets : List ℕ) (props : Obj) :
    EngineState :=
  { e with sets := e.sets ++ [(targets, props)] }

/-- `gsap.timeline(opts)`: create a timeline, return its id. -/
def EngineState.gsapTimeline (e : EngineState) (opts : Obj) : ℕ × EngineState :=
  (e.nextId,
   { e with timelines := e.timelines ++ [⟨e.nextId, opts, [], [], false⟩],
            nextId := e.nextId + 1 })

/-- `tl.to(target, config)`: append one step to timeline `i`. -/
def EngineState.tlTo (e : EngineState) (i : ℕ) (target : ℕ) (config : Obj) :
    EngineState :=
  { e with timelines := (e.timelines.map
      (fun tl => if tl.id == i then { tl with steps := tl.steps ++ [⟨target, config⟩] } else tl)) }

/-- A control operation (`play`, `pause`, `reverse`, `restart`) on timeline `i`. -/
def EngineState.tlControl (e : EngineState) (i : ℕ) (op : String) : EngineState :=
  { e with timelines := (e.timelines.map
      (fun tl => if tl.id == i then { tl with log := tl.log ++ [op] } else tl)) }

/-- A handle returned to the caller: an engine tween or an engine timeline. -/
inductive Handle where
  | tween (id : ℕ)
  | timeline (id : ℕ)
deriving DecidableEq

/-- `handle.kill()`: mark the referenced animation killed. -/
def EngineState.kill (e : EngineState) (h : Handle) : EngineState :=
  match h with
  | .tween i =>
      { e with tweens := (e.tweens.map
          (fun t => if t.id == i then { t with killed := true } else t)) }
  | .timeline i =>
      { e with timelines := (e.timelines.map
          (fun tl => if tl.id == i then { tl with killed := true } else tl)) }

/-- Modelled from the spec: `gsap.killTweensOf` is engine code not in this
repository; the spec describes the `killTweensOf` fallback in `killAll` as
cancelling "every animation in the host environment regardless of origin", so
it marks every tween and every timeline killed. -/
def EngineState.killTweensOfAll (e : EngineState) : EngineState :=
  { e with tweens := e.tweens.map (fun t => { t with killed := true }),
           timelines := e.timelines.map (fun tl => { tl with killed := true }) }

/-- What the engine currently holds for a handle. -/
def EngineState.lookup (e : EngineState) (h : Handle) : Option (Tween ⊕ Timeline) :=
  match h with
  | .tween i => (e.tweens.find? (fun t => t.id == i)).map Sum.inl
  | .timeline i => (e.timelines.find? (fun tl => tl.id == i)).map Sum.inr

/-- The state of one `GSAPAnimationLibrary` instance: the engine it drives,
its `activeAnimations` set (a list without duplicates, in insertion order) and
its `timelines` name registry (insertion order, last write wins on lookup). -/
structure LibState where
  engine : EngineState
  activeAnimations : List Handle
  timelinesReg : List (String × ℕ)
deriving DecidableEq

/-- `Set.prototype.add`: insert if not already present. -/
def insertHandle (l : List Handle) (h : Handle) : List Handle :=
  if h ∈ l then l else l ++ [h]

/-- `Map.prototype.get` on the timeline registry (last write wins). -/
def LibState.regGet (s : LibState) (name : String) : Option ℕ :=
  (s.timelinesReg.reverse.find? (fun p => p.1 == name)).map Prod.snd

/-- The defaults object of `animate`. -/
def animateDefaults : Obj :=
  [("duration", .num 1), ("ease", .str "power2.out"), ("delay", .num 0),
   ("onComplete", .nullV), ("onStart", .nullV)]

/-- The configuration `animate` submits to `gsap.to`:
`config = \x7b ...defaults, ...options, ...properties \x7d` followed by
`if (options.onStart) config.onStart = options.onStart` and the same for
`onComplete`. -/
def animateConfig (properties options : Obj) : Obj :=
  let config := animateDefaults ++ options ++ properties
  let config := if truthyO (options.get "onStart")
    then config ++ [("onStart", (options.get "onStart").getD .nullV)] else config
  if truthyO (options.get "onComplete")
    then config ++ [("onComplete", (options.get "onComplete").getD .nullV)] else config

/-- `animate(element, properties, options)`: build the merged config, submit
one `gsap.to`, track the returned tween in `activeAnimations`, return it. -/
def animate (s : LibState) (element : ℕ) (properties : Obj) (options : Obj) :
    Handle × LibState :=
  let (i, e) := s.engine.gsapTo [element] (animateConfig properties options)
  (Handle.tween i,
   { s with engine := e,
            activeAnimations := insertHandle s.activeAnimations (Handle.tween i) })

/-- `fadeIn(element, options)`. -/
def fadeIn (s : LibState) (element : ℕ) (options : Obj) : Handle × LibState :=
  let s1 := { s with engine := s.engine.gsapSet [element] [("opacity", .num 0)] }
  animate s1 element [("opacity", .num 1)] options

/-- `fadeOut(element, options)`. -/
def fadeOut (s : LibState) (element : ℕ) (options : Obj) : Handle × LibState :=
  animate s element [("opacity", .num 0)] options

/-- `slideUp(element, options)`. -/
def slideUp (s : LibState) (element : ℕ) (options : Obj) : Handle × LibState :=
  let distance := options.orDefault "distance" (.num 100)
  let s1 := { s with engine := (s.engine.gsapSet [element]
                [("y", distance), ("opacity", .num 0)]) }
  animate s1 element [("y", .num 0), ("opacity", .num 1)] options

/-- `slideDown(element, options)`. -/
def slideDown (s : LibState) (element : ℕ) (options : Obj) : Handle × LibState :=
  let distance := options.orDefault "distance" (.num 100)
  let s1 := { s with engine := (s.engine.gsapSet [element]
                [("y", distance.negV), ("opacity", .num 0)]) }
  animate s1 element [("y", .num 0), ("opacity", .num 1)] options

/-- `slideLeft(element, options)`. -/
def slideLeft (s : LibState) (element : ℕ) (options : Obj) : Handle × LibState :=
  let distance := options.orDefault "distance" (.num 100)
  let s1 := { s with engine := (s.engine.gsapSet [element]
                [("x", distance), ("opacity", .num 0)]) }
  animate s1 element [("x", .num 0), ("opacity", .num 1)] options

/-- `slideRight(element, options)`. -/
def slideRight (s : LibState) (element : ℕ) (options : Obj) : Handle × LibState :=
  let distance := options.orDefault "distance" (.num 100)
  let s1 := { s with engine := (s.engine.gsapSet [element]
                [("x", distance.negV), ("opacity", .num 0)]) }
  animate s1 element [("x", .num 0), ("opacity", .num 1)] options

/-- `scaleUp(element, options)`. -/
def scaleUp (s : LibState) (element : ℕ) (options : Obj) : Handle × LibState :=
  let s1 := { s with engine := (s.engine.gsapSet [element]
                [("scale", .num 0), ("opacity", .num 0)]) }
  animate s1 element [("scale", .num 1), ("opacity", .num 1)]
    ([("ease", .str "back.out(1.7)")] ++ options)

/-- `scaleDown(element, options)`. -/
def scaleDown (s : LibState) (element : ℕ) (options : Obj) : Handle × LibState :=
  animate s element [("scale", .num 0), ("opacity", .num 0)]
    ([("ease", .str "back.in(1.7)")] ++ options)

/-- `rotateIn(element, options)`. -/
def rotateIn (s : LibState) (element : ℕ) (options : Obj) : Handle × LibState :=
  let s1 := { s with engine := (s.engine.gsapSet [element]
                [("rotation", .num (-180)), ("scale", .num 0), ("opacity", .num 0)]) }
  animate s1 element [("rotation", .num 0), ("scale", .num 1), ("opacity", .num 1)]
    ([("ease", .str "back.out(1.7)")] ++ options)

/-- `rotateOut(element, options)`. -/
def rotateOut (s : LibState) (element : ℕ) (options : Obj) : Handle × LibState :=
  animate s element [("rotation", .num 180), ("scale", .num 0), ("opacity", .num 0)]
    ([("ease", .str "back.in(1.7)")] ++ options)

/-- `bounceIn(element, options)`. -/
def bounceIn (s : LibState) (element : ℕ) (options : Obj) : Handle × LibState :=
  let s1 := { s with engine := (s.engine.gsapSet [element]
                [("y", .num (-100)), ("opacity", .num 0)]) }
  animate s1 element [("y", .num 0), ("opacity", .num 1)]
    ([("ease", .str "bounce.out"), ("duration", .num (3/2))] ++ options)

/-- `elastic(element, options)`. -/
def elastic (s : LibState) (element : ℕ) (options : Obj) : Handle × LibState :=
  let s1 := { s with engine := (s.engine.gsapSet [element]
                [("scale", .num 0), ("opacity", .num 0)]) }
  animate s1 element [("scale", .num 1), ("opacity", .num 1)]
    ([("ease", .str "elastic.out(1, 0.5)"), ("duration", .num (3/2))] ++ options)

/-- `flip(element, options)`. -/
def flip (s : LibState) (element : ℕ) (options : Obj) : Handle × LibState :=
  animate s element [("rotationY", .num 360)]
    ([("duration", .num 1)] ++ options)

/-- `shake(element, options)`: a fresh timeline with five `.to` steps on `x`
of 0.1 each; the timeline is returned without being tracked. -/
def shake (s : LibState) (element : ℕ) (options : Obj) : Handle × LibState :=
  let (i, e0) := s.engine.gsapTimeline []
  let intensity := options.orDefault "intensity" (.num 10)
  let e1 := e0.tlTo i element [("x", intensity.negV), ("duration", .num (1/10))]
  let e2 := e1.tlTo i element [("x", intensity), ("duration", .num (1/10))]
  let e3 := e2.tlTo i element [("x", intensity.negV), ("duration", .num (1/10))]
  let e4 := e3.tlTo i element [("x", intensity), ("duration", .num (1/10))]
  let e5 := e4.tlTo i element [("x", .num 0), ("duration", .num (1/10))]
  (Handle.timeline i, { s with engine := e5 })

/-- `pulse(element, options)`: a fresh repeating timeline with two scale
steps; returned without being tracked. -/
def pulse (s : LibState) (element : ℕ) (options : Obj) : Handle × LibState :=
  let (i, e0) := s.engine.gsapTimeline
    [("repeat", options.orDefault "repeat" (.num 2))]
  let e1 := e0.tlTo i element [("scale", .num (11/10)), ("duration", .num (3/10))]
  let e2 := e1.tlTo i element [("scale", .num 1), ("duration", .num (3/10))]
  (Handle.timeline i, { s with engine := e2 })

/-- `staggerFadeIn(elements, options)`: direct `gsap.to`, not tracked. -/
def staggerFadeIn (s : LibState) (elements : List ℕ) (options : Obj) :
    Handle × LibState :=
  let s1 := { s with engine := s.engine.gsapSet elements [("opacity", .num 0)] }
  let (i, e) := s1.engine.gsapTo elements
    [("opacity", .num 1),
     ("duration", options.orDefault "duration" (.num 1)),
     ("stagger", options.orDefault "stagger" (.num (1/5))),
     ("ease", options.orDefault "ease" (.str "power2.out")),
     ("delay", options.orDefault "delay" (.num 0))]
  (Handle.tween i, { s1 with engine := e })

/-- `staggerSlideUp(elements, options)`: direct `gsap.to`, not tracked;
note the default distance is 50. -/
def staggerSlideUp (s : LibState) (elements : List ℕ) (options : Obj) :
    Handle × LibState :=
  let distance := options.orDefault "distance" (.num 50)
  let s1 := { s with engine := (s.engine.gsapSet elements
                [("y", distance), ("opacity", .num 0)]) }
  let (i, e) := s1.engine.gsapTo elements
    [("y", .num 0), ("opacity", .num 1),
     ("duration", options.orDefault "duration" (.num 1)),
     ("stagger", options.orDefault "stagger" (.num (1/5))),
     ("ease", options.orDefault "ease" (.str "power2.out")),
     ("delay", options.orDefault "delay" (.num 0))]
  (Handle.tween i, { s1 with engine := e })

/-- `staggerScale(elements, options)`: direct `gsap.to`, not tracked. -/
def staggerScale (s : LibState) (elements : List ℕ) (options : Obj) :
    Handle × LibState :=
  let s1 := { s with engine := (s.engine.gsapSet elements
                [("scale", .num 0), ("opacity", .num 0)]) }
  let (i, e) := s1.engine.gsapTo elements
    [("scale", .num 1), ("opacity", .num 1),
     ("duration", options.orDefault "duration" (.num 1)),
     ("stagger", options.orDefault "stagger" (.num (1/5))),
     ("ease", options.orDefault "ease" (.str "back.out(1.7)")),
     ("delay", options.orDefault "delay" (.num 0))]
  (Handle.tween i, { s1 with engine := e })

/-- `createTimeline(name, options)`: build an engine timeline, store it in the
registry under `name` (overwriting), return it. -/
def createTimeline (s : LibState) (name : String) (options : Obj) :
    Handle × LibState :=
  let (i, e) := s.engine.gsapTimeline options
  (Handle.timeline i,
   { s with engine := e, timelinesReg := s.timelinesReg ++ [(name, i)] })

/-- `getTimeline(name)`: pure registry lookup. -/
def getTimeline (s : LibState) (name : String) : Option Handle :=
  (s.regGet name).map Handle.timeline

/-- `playTimeline(name)`: no-op when the name is unknown. -/
def playTimeline (s : LibState) (name : String) : LibState :=
  match s.regGet name with
  | some i => { s with engine := s.engine.tlControl i "play" }
  | none => s

/-- `pauseTimeline(name)`: no-op when the name is unknown. -/
def pauseTimeline (s : LibState) (name : String) : LibState :=
  match s.regGet name with
  | some i => { s with engine := s.engine.tlControl i "pause" }
  | none => s

/-- `reverseTimeline(name)`: no-op when the name is unknown. -/
def reverseTimeline (s : LibState) (name : String) : LibState :=
  match s.regGet name with
  | some i => { s with engine := s.engine.tlControl i "reverse" }
  | none => s

/-- `restartTimeline(name)`: no-op when the name is unknown. -/
def restartTimeline (s : LibState) (name : String) : LibState :=
  match s.regGet name with
  | some i => { s with engine := s.engine.tlControl i "restart" }
  | none => s

/-- `killAll()`: kill every tracked handle, clear the set, then
`gsap.killTweensOf` on everything. -/
def killAll (s : LibState) : LibState :=
  let e1 := s.activeAnimations.foldl EngineState.kill s.engine
  { s with engine := e1.killTweensOfAll, activeAnimations := [] }

/-- `killAnimation(animation)`: `if (animation)` kill it and remove it from
the set; `null`/`undefined` is a no-op. -/
def killAnimation (s : LibState) (animation : Option Handle) : LibState :=
  match animation with
  | some h =>
      { s with engine := s.engine.kill h,
               activeAnimations := s.activeAnimations.filter (fun x => x ≠ h) }
  | none => s

/-- A freshly constructed library instance on a fresh engine. -/
def initState : LibState :=
  ⟨⟨[], [], [], 0⟩, [], []⟩

/-- Spec-side description of `animate`'s merge (used to check refinement):
precedence defaults < options < raw properties on every key, except that a
truthy `options.onStart`/`options.onComplete` takes final precedence. -/
def mergedSpec (properties options : Obj) (k : String) : Option Value :=
  if (k == "onStart" || k == "onComplete") && truthyO (options.get k) then
    options.get k
  else
    (properties.get k).or ((options.get k).or (animateDefaults.get k))

theorem Obj.get_append (a b : Obj) (k : String) :
    (a ++ b).get k = (b.get k).or (a.get k) := by
  unfold Obj.get
  rw [List.reverse_append, List.find?_append]
  cases b.reverse.find? (fun p => p.1 == k) <;> simp

theorem Obj.get_single (k k' : String) (v : Value) :
    Obj.get [(k', v)] k = if k' == k then some v else none := by
  simp [Obj.get, List.find?]
  split <;> simp_all

theorem Obj.get_pair (k a b : String) (va vb : Value) :
    Obj.get [(a, va), (b, vb)] k = if b == k then some vb else if a == k then some va else none := by
  have hsplit : ([(a, va), (b, vb)] : Obj) = [(a, va)] ++ [(b, vb)] := rfl
  rw [hsplit, Obj.get_append, Obj.get_single, Obj.get_single]
  by_cases hb : (b == k) = true <;> simp [hb]

theorem truthyO_some {x : Option Value} (h : truthyO x = true) :
    x = some (x.getD .nullV) := by
  cases x with
  | none => simp [truthyO] at h
  | some v => rfl

theorem animateConfig_get (props opts : Obj) (k : String) :
    (animateConfig props opts).get k = mergedSpec props opts k := by
  have base : (animateDefaults ++ opts ++ props).get k
      = (props.get k).or ((opts.get k).or (animateDefaults.get k)) := by
    rw [Obj.get_append, Obj.get_append]
  by_cases h1 : k = "onStart"
  · subst h1
    by_cases hS : truthyO (opts.get "onStart") <;>
      by_cases hC : truthyO (opts.get "onComplete") <;>
        simp [animateConfig, mergedSpec, hS, hC, Obj.get_append, Obj.get_single,
          Obj.get_pair, base, Option.or_assoc] <;>
        exact (truthyO_some hS).symm
  · by_cases h2 : k = "onComplete"
    · subst h2
      by_cases hS : truthyO (opts.get "onStart") <;>
        by_cases hC : truthyO (opts.get "onComplete") <;>
          simp [animateConfig, mergedSpec, hS, hC, Obj.get_append, Obj.get_single,
            Obj.get_pair, base, Option.or_assoc] <;>
          exact (truthyO_some hC).symm
    · have h1a : ("onStart" == k) = false := by
        simp only [beq_eq_false_iff_ne, ne_eq]
        exact fun hh => h1 hh.symm
      have h2a : ("onComplete" == k) = false := by
        simp only [beq_eq_false_iff_ne, ne_eq]
        exact fun hh => h2 hh.symm
      by_cases hS : truthyO (opts.get "onStart") <;>
        by_cases hC : truthyO (opts.get "onComplete") <;>
          simp [animateConfig, mergedSpec, hS, hC, h1, h2, h1a, h2a,
            Obj.get_append, Obj.get_single, Obj.get_pair, base, Option.or_assoc]

theorem mem_insertHandle (l : List Handle) (h : Handle) : h ∈ insertHandle l h := by
  unfold insertHandle
  by_cases hl : h ∈ l <;> simp [hl]

theorem animate_fst_mem (s : LibState) (e : ℕ) (props opts : Obj) :
    (animate s e props opts).1 ∈ (animate s e props opts).2.activeAnimations :=
  mem_insertHandle s.activeAnimations (Handle.tween s.engine.nextId)

/-- C2 (amended). `animate` submits exactly one engine animation — the tween
list grows by one entry targeting the element, timelines and set calls are
untouched — and the submitted configuration agrees on every key with the merge
defaults < options < raw properties, except that the five-key defaults also
carry `onComplete`/`onStart` entries (initially null) and a truthy
`options.onStart`/`options.onComplete` takes final precedence over the raw
property map on that key. -/
theorem animate_submits_merged_config (s : LibState) (e : ℕ) (props opts : Obj) :
    ∃ t : Tween,
      (animate s e props opts).2.engine.tweens = s.engine.tweens ++ [t] ∧
      (animate s e props opts).1 = Handle.tween t.id ∧
      t.targets = [e] ∧ t.killed = false ∧
      (∀ k, t.config.get k = mergedSpec props opts k) ∧
      (animate s e props opts).2.engine.timelines = s.engine.timelines ∧
      (animate s e props opts).2.engine.sets = s.engine.sets :=
  ⟨⟨s.engine.nextId, [e], animateConfig props opts, false⟩,
   rfl, rfl, rfl, rfl, fun k => animateConfig_get props opts k, rfl, rfl⟩

/-- C2 counterexample. With `properties = \x7bonStart: f1\x7d` and
`options = \x7bonStart: f2\x7d` the submitted configuration carries the options
callback `f2`, not the raw-property value `f1`, so the raw property map does
not override the options record on every key; and with both records empty the
configuration still carries an `onComplete` entry (null) coming from the
defaults, which the claim's three-key defaults record would not produce. -/
theorem animate_precedence_cex :
    (animateConfig [("onStart", .fn 1)] [("onStart", .fn 2)]).get "onStart"
        = some (.fn 2) ∧
    Obj.get [("onStart", Value.fn 1)] "onStart" = some (.fn 1) ∧
    (animateConfig [] []).get "onComplete" = some .nullV ∧
    (some (Value.fn 2) : Option Value) ≠ some (.fn 1) := by
  refine ⟨by decide, by decide, by decide, by decide⟩

/-- C1 (amended). `animate`, and every preset that delegates to `animate`
(`fadeIn`, `fadeOut`, `slideUp`, `slideDown`, `slideLeft`, `slideRight`,
`scaleUp`, `scaleDown`, `rotateIn`, `rotateOut`, `bounceIn`, `elastic`,
`flip`), inserts the handle it returns into the dispatcher's
`activeAnimations` set before returning, for all targets and options. -/
theorem returned_handles_tracked (s : LibState) (e : ℕ) (props o : Obj) :
    (animate s e props o).1 ∈ (animate s e props o).2.activeAnimations ∧
    (fadeIn s e o).1 ∈ (fadeIn s e o).2.activeAnimations ∧
    (fadeOut s e o).1 ∈ (fadeOut s e o).2.activeAnimations ∧
    (slideUp s e o).1 ∈ (slideUp s e o).2.activeAnimations ∧
    (slideDown s e o).1 ∈ (slideDown s e o).2.activeAnimations ∧
    (slideLeft s e o).1 ∈ (slideLeft s e o).2.activeAnimations ∧
    (slideRight s e o).1 ∈ (slideRight s e o).2.activeAnimations ∧
    (scaleUp s e o).1 ∈ (scaleUp s e o).2.activeAnimations ∧
    (scaleDown s e o).1 ∈ (scaleDown s e o).2.activeAnimations ∧
    (rotateIn s e o).1 ∈ (rotateIn s e o).2.activeAnimations ∧
    (rotateOut s e o).1 ∈ (rotateOut s e o).2.activeAnimations ∧
    (bounceIn s e o).1 ∈ (bounceIn s e o).2.activeAnimations ∧
    (elastic s e o).1 ∈ (elastic s e o).2.activeAnimations ∧
    (flip s e o).1 ∈ (flip s e o).2.activeAnimations :=
  ⟨animate_fst_mem _ _ _ _, animate_fst_mem _ _ _ _, animate_fst_mem _ _ _ _,
   animate_fst_mem _ _ _ _, animate_fst_mem _ _ _ _, animate_fst_mem _ _ _ _,
   animate_fst_mem _ _ _ _, animate_fst_mem _ _ _ _, animate_fst_mem _ _ _ _,
   animate_fst_mem _ _ _ _, animate_fst_mem _ _ _ _, animate_fst_mem _ _ _ _,
   animate_fst_mem _ _ _ _, animate_fst_mem _ _ _ _⟩

/-- C1 counterexample. `shake` and `staggerFadeIn` (likewise `pulse`,
`staggerSlideUp`, `staggerScale`) return their engine handle without inserting
it into `activeAnimations`: on a fresh instance the returned handle is not in
the active set. -/
theorem untracked_presets_cex :
    (shake initState 0 []).1 ∉ (shake initState 0 []).2.activeAnimations ∧
    (staggerFadeIn initState [0] []).1 ∉
      (staggerFadeIn initState [0] []).2.activeAnimations ∧
    (staggerSlideUp initState [0] []).1 ∉
      (staggerSlideUp initState [0] []).2.activeAnimations ∧
    (staggerScale initState [0] []).1 ∉
      (staggerScale initState [0] []).2.activeAnimations ∧
    (pulse initState 0 []).1 ∉ (pulse initState 0 []).2.activeAnimations := by
  refine ⟨by decide, by decide, by decide, by decide, by decide⟩

/-- C6. `createTimeline(name, o1)` followed by `getTimeline(name)` returns
exactly the handle `createTimeline` returned; after a second
`createTimeline(name, o2)` the registry lookup returns only the new handle,
which is distinct from the first (last write wins). -/
theorem createTimeline_last_write_wins (s : LibState) (name : String)
    (o1 o2 : Obj) :
    getTimeline (createTimeline s name o1).2 name
        = some (createTimeline s name o1).1 ∧
    getTimeline (createTimeline (createTimeline s name o1).2 name o2).2 name
        = some (createTimeline (createTimeline s name o1).2 name o2).1 ∧
    (createTimeline (createTimeline s name o1).2 name o2).1
        ≠ (createTimeline s name o1).1 := by
  refine ⟨?_, ?_, ?_⟩ <;>
    simp [createTimeline, getTimeline, LibState.regGet, EngineState.gsapTimeline,
      List.find?_append]

/-- C7. On a name absent from the registry, each of `playTimeline`,
`pauseTimeline`, `reverseTimeline` and `restartTimeline` returns the state
unchanged: no error, no effect on the registry or any stored timeline. -/
theorem timeline_controls_unknown_noop (s : LibState) (name : String)
    (h : s.regGet name = none) :
    playTimeline s name = s ∧ pauseTimeline s name = s ∧
    reverseTimeline s name = s ∧ restartTimeline s name = s := by
  refine ⟨?_, ?_, ?_, ?_⟩ <;>
    simp [playTimeline, pauseTimeline, reverseTimeline, restartTimeline, h]

/-- Witness for C7 at a concrete state: the controls are no-ops on a fresh
instance and the name "missing". -/
theorem timeline_controls_unknown_noop_witness :
    playTimeline initState "missing" = initState ∧
    pauseTimeline initState "missing" = initState ∧
    reverseTimeline initState "missing" = initState ∧
    restartTimeline initState "missing" = initState :=
  timeline_controls_unknown_noop initState "missing" (by decide)

/-- C10. `killAnimation` with a null/undefined argument is the identity: the
active-handle set, the registry and every engine animation are unchanged. -/
theorem killAnimation_null_noop (s : LibState) :
    killAnimation s none = s := rfl

/-- C4. After `killAll`, for any prior state (hence after any sequence of
preset or `animate` invocations), the `activeAnimations` set is empty and
every tween and every timeline in the host environment — those this instance
produced and any others — is in the killed state. -/
theorem killAll_empties_and_kills (s : LibState) :
    (killAll s).activeAnimations = [] ∧
    (∀ t ∈ (killAll s).engine.tweens, t.killed = true) ∧
    (∀ tl ∈ (killAll s).engine.timelines, tl.killed = true) := by
  refine ⟨rfl, ?_, ?_⟩ <;>
    · intro x hx
      simp only [killAll, EngineState.killTweensOfAll, List.mem_map] at hx
      obtain ⟨u, hu, rfl⟩ := hx
      rfl

theorem find?_map_killIf_tween (l : List Tween) (i j : ℕ) (hij : j ≠ i) :
    (l.map (fun t => if t.id == i then { t with killed := true } else t)).find?
        (fun t => t.id == j)
      = l.find? (fun t => t.id == j) := by
  induction l with
  | nil => rfl
  | cons t ts ih =>
      rw [List.map_cons]
      by_cases hti : (t.id == i) = true
      · have htj : (t.id == j) = false := by
          rw [beq_iff_eq.mp hti]
          simp only [beq_eq_false_iff_ne, ne_eq]
          exact fun hh => hij hh.symm
        rw [if_pos hti]
        simp only [List.find?_cons]
        rw [htj]
        exact ih
      · rw [if_neg hti]
        simp only [List.find?_cons]
        by_cases htj : (t.id == j) = true
        · rw [htj]
        · have htj' : (t.id == j) = false := by
            cases hb : (t.id == j) with
            | true => exact absurd hb htj
            | false => rfl
          rw [htj']
          exact ih

theorem find?_map_killIf_timeline (l : List Timeline) (i j : ℕ) (hij : j ≠ i) :
    (l.map (fun tl => if tl.id == i then { tl with killed := true } else tl)).find?
        (fun tl => tl.id == j)
      = l.find? (fun tl => tl.id == j) := by
  induction l with
  | nil => rfl
  | cons t ts ih =>
      rw [List.map_cons]
      by_cases hti : (t.id == i) = true
      · have htj : (t.id == j) = false := by
          rw [beq_iff_eq.mp hti]
          simp only [beq_eq_false_iff_ne, ne_eq]
          exact fun hh => hij hh.symm
        rw [if_pos hti]
        simp only [List.find?_cons]
        rw [htj]
        exact ih
      · rw [if_neg hti]
        simp only [List.find?_cons]
        by_cases htj : (t.id == j) = true
        · rw [htj]
        · have htj' : (t.id == j) = false := by
            cases hb : (t.id == j) with
            | true => exact absurd hb htj
            | false => rfl
          rw [htj']
          exact ih

theorem kill_lookup_other (e : EngineState) (h h' : Handle) (hne : h' ≠ h) :
    (e.kill h).lookup h' = e.lookup h' := by
  cases h with
  | tween i =>
      cases h' with
      | tween j =>
          have hij : j ≠ i := fun hh => hne (by rw [hh])
          simp only [EngineState.kill, EngineState.lookup]
          rw [find?_map_killIf_tween _ _ _ hij]
      | timeline j => rfl
  | timeline i =>
      cases h' with
      | tween j => rfl
      | timeline j =>
          have hij : j ≠ i := fun hh => hne (by rw [hh])
          simp only [EngineState.kill, EngineState.lookup]
          rw [find?_map_killIf_timeline _ _ _ hij]

/-- C8. For a tracked handle `h` in the active set, `killAnimation(h)` removes
exactly `h`: `h` is gone, every other handle's membership in the set is
unchanged, every other handle's engine animation is untouched, and the
timeline registry is untouched. -/
theorem killAnimation_removes_exactly (s : LibState) (h : Handle)
    (_hmem : h ∈ s.activeAnimations) :
    h ∉ (killAnimation s (some h)).activeAnimations ∧
    (∀ h' : Handle, h' ≠ h →
      (h' ∈ (killAnimation s (some h)).activeAnimations ↔
        h' ∈ s.activeAnimations)) ∧
    (∀ h' : Handle, h' ≠ h →
      (killAnimation s (some h)).engine.lookup h' = s.engine.lookup h') ∧
    (killAnimation s (some h)).timelinesReg = s.timelinesReg := by
  refine ⟨?_, ?_, ?_, rfl⟩
  · simp [killAnimation, List.mem_filter]
  · intro h' hne
    simp [killAnimation, List.mem_filter, hne]
  · intro h' hne
    exact kill_lookup_other s.engine h h' hne

/-- Witness for C8: on an instance whose active set holds the single tween
handle produced by one `animate` call, killing that handle empties the set
and touches nothing else. -/
theorem killAnimation_removes_exactly_witness :
    Handle.tween 0 ∉
      (killAnimation (animate initState 0 [] []).2
        (some (Handle.tween 0))).activeAnimations ∧
    (∀ h' : Handle, h' ≠ Handle.tween 0 →
      (h' ∈ (killAnimation (animate initState 0 [] []).2
          (some (Handle.tween 0))).activeAnimations ↔
        h' ∈ (animate initState 0 [] []).2.activeAnimations)) ∧
    (∀ h' : Handle, h' ≠ Handle.tween 0 →
      (killAnimation (animate initState 0 [] []).2
          (some (Handle.tween 0))).engine.lookup h'
        = (animate initState 0 [] []).2.engine.lookup h') ∧
    (killAnimation (animate initState 0 [] []).2
        (some (Handle.tween 0))).timelinesReg
      = (animate initState 0 [] []).2.timelinesReg :=
  killAnimation_removes_exactly (animate initState 0 [] []).2 (Handle.tween 0)
    (by decide)

/-- The properties of the most recent `gsap.set` call in a state. -/
def lastSetProps (s : LibState) : Obj :=
  ((s.engine.sets.getLast?).map Prod.snd).getD []

/-- The configuration of the most recently submitted `gsap.to` tween. -/
def lastTweenConfig (s : LibState) : Obj :=
  ((s.engine.tweens.getLast?).map Tween.config).getD []

/-- C9. With a numeric nonzero `distance` option (or none, in which case the
default 100 applies), the four directional slide presets set their documented
initial offsets — `slideUp` `y = +distance`, `slideDown` `y = -distance`,
`slideLeft` `x = +distance`, `slideRight` `x = -distance`, each with opacity
0 — and each submits an animation whose configuration sends the offset to 0
and opacity to 1. -/
theorem slide_presets_offsets (s : LibState) (e : ℕ) (o : Obj) (d : ℚ)
    (hd : (o.get "distance" = some (.num d) ∧ d ≠ 0) ∨
          (o.get "distance" = none ∧ d = 100)) :
    lastSetProps (slideUp s e o).2 = [("y", .num d), ("opacity", .num 0)] ∧
    (lastTweenConfig (slideUp s e o).2).get "y" = some (.num 0) ∧
    (lastTweenConfig (slideUp s e o).2).get "opacity" = some (.num 1) ∧
    lastSetProps (slideDown s e o).2 = [("y", .num (-d)), ("opacity", .num 0)] ∧
    (lastTweenConfig (slideDown s e o).2).get "y" = some (.num 0) ∧
    (lastTweenConfig (slideDown s e o).2).get "opacity" = some (.num 1) ∧
    lastSetProps (slideLeft s e o).2 = [("x", .num d), ("opacity", .num 0)] ∧
    (lastTweenConfig (slideLeft s e o).2).get "x" = some (.num 0) ∧
    (lastTweenConfig (slideLeft s e o).2).get "opacity" = some (.num 1) ∧
    lastSetProps (slideRight s e o).2 = [("x", .num (-d)), ("opacity", .num 0)] ∧
    (lastTweenConfig (slideRight s e o).2).get "x" = some (.num 0) ∧
    (lastTweenConfig (slideRight s e o).2).get "opacity" = some (.num 1) := by
  have hdist : o.orDefault "distance" (.num 100) = .num d := by
    rcases hd with ⟨hget, hne⟩ | ⟨hget, rfl⟩
    · simp [Obj.orDefault, hget, Value.truthy, hne]
    · simp [Obj.orDefault, hget]
  refine ⟨?_, ?_, ?_, ?_, ?_, ?_, ?_, ?_, ?_, ?_, ?_, ?_⟩ <;>
    simp [slideUp, slideDown, slideLeft, slideRight, animate,
      EngineState.gsapTo, EngineState.gsapSet, lastSetProps, lastTweenConfig,
      List.getLast?_concat, hdist, Value.negV, animateConfig_get, mergedSpec,
      Obj.get_pair]

/-- Witness for C9 on a fresh instance with no `distance` option (default
100). -/
theorem slide_presets_offsets_witness :
    lastSetProps (slideUp initState 0 []).2
        = [("y", .num 100), ("opacity", .num 0)] ∧
    (lastTweenConfig (slideUp initState 0 []).2).get "y" = some (.num 0) ∧
    (lastTweenConfig (slideUp initState 0 []).2).get "opacity"
        = some (.num 1) ∧
    lastSetProps (slideDown initState 0 []).2
        = [("y", .num (-100)), ("opacity", .num 0)] ∧
    (lastTweenConfig (slideDown initState 0 []).2).get "y" = some (.num 0) ∧
    (lastTweenConfig (slideDown initState 0 []).2).get "opacity"
        = some (.num 1) ∧
    lastSetProps (slideLeft initState 0 []).2
        = [("x", .num 100), ("opacity", .num 0)] ∧
    (lastTweenConfig (slideLeft initState 0 []).2).get "x" = some (.num 0) ∧
    (lastTweenConfig (slideLeft initState 0 []).2).get "opacity"
        = some (.num 1) ∧
    lastSetProps (slideRight initState 0 []).2
        = [("x", .num (-100)), ("opacity", .num 0)] ∧
    (lastTweenConfig (slideRight initState 0 []).2).get "x" = some (.num 0) ∧
    (lastTweenConfig (slideRight initState 0 []).2).get "opacity"
        = some (.num 1) :=
  slide_presets_offsets initState 0 [] 100 (Or.inr ⟨rfl, rfl⟩)

/-- C3 (amended). Each stagger variant applies the same initial-state and
final-state property pairs as its singular counterpart — `staggerFadeIn` and
`fadeIn` both start at opacity 0 and end at opacity 1, `staggerScale` and
`scaleUp` both start at scale 0 / opacity 0 and end at scale 1 / opacity 1,
`staggerSlideUp` and `slideUp` both start at `y = distance` / opacity 0 and
end at `y = 0` / opacity 1 — except that with no `distance` option
`staggerSlideUp` uses default distance 50 while `slideUp` uses 100 (an
explicitly supplied truthy `distance` gives both the same offset). -/
theorem stagger_variants_match_singular (s : LibState) (elems : List ℕ)
    (e : ℕ) (o : Obj) :
    lastSetProps (staggerFadeIn s elems o).2 = [("opacity", .num 0)] ∧
    lastSetProps (fadeIn s e o).2 = [("opacity", .num 0)] ∧
    (lastTweenConfig (staggerFadeIn s elems o).2).get "opacity"
        = some (.num 1) ∧
    (lastTweenConfig (fadeIn s e o).2).get "opacity" = some (.num 1) ∧
    lastSetProps (staggerScale s elems o).2
        = [("scale", .num 0), ("opacity", .num 0)] ∧
    lastSetProps (scaleUp s e o).2 = [("scale", .num 0), ("opacity", .num 0)] ∧
    (lastTweenConfig (staggerScale s elems o).2).get "scale"
        = some (.num 1) ∧
    (lastTweenConfig (staggerScale s elems o).2).get "opacity"
        = some (.num 1) ∧
    (lastTweenConfig (scaleUp s e o).2).get "scale" = some (.num 1) ∧
    (lastTweenConfig (scaleUp s e o).2).get "opacity" = some (.num 1) ∧
    lastSetProps (staggerSlideUp s elems o).2
        = [("y", o.orDefault "distance" (.num 50)), ("opacity", .num 0)] ∧
    lastSetProps (slideUp s e o).2
        = [("y", o.orDefault "distance" (.num 100)), ("opacity", .num 0)] ∧
    (lastTweenConfig (staggerSlideUp s elems o).2).get "y" = some (.num 0) ∧
    (lastTweenConfig (staggerSlideUp s elems o).2).get "opacity"
        = some (.num 1) ∧
    (lastTweenConfig (slideUp s e o).2).get "y" = some (.num 0) ∧
    (lastTweenConfig (slideUp s e o).2).get "opacity" = some (.num 1) := by
  refine ⟨?_, ?_, ?_, ?_, ?_, ?_, ?_, ?_, ?_, ?_, ?_, ?_, ?_, ?_, ?_, ?_⟩ <;>
    first
      | (simp [staggerFadeIn, fadeIn, staggerScale, scaleUp, staggerSlideUp,
          slideUp, animate, EngineState.gsapTo, EngineState.gsapSet,
          lastSetProps, lastTweenConfig, List.getLast?_concat,
          animateConfig_get, mergedSpec, Obj.get_pair, Obj.get_single]
         done)
      | (simp [staggerFadeIn, fadeIn, staggerScale, scaleUp, staggerSlideUp,
          slideUp, animate, EngineState.gsapTo, EngineState.gsapSet,
          lastSetProps, lastTweenConfig, List.getLast?_concat, Obj.get,
          List.find?]
         done)

/-- C3 counterexample. With no `distance` option on a fresh instance,
`staggerSlideUp` sets the initial offset `y = 50` while `slideUp` sets
`y = 100`: the stagger variant does not use the same default initial offset
(distance 100) as `slideUp`. -/
theorem staggerSlideUp_default_distance_cex :
    (lastSetProps (staggerSlideUp initState [0] []).2).get "y"
        = some (.num 50) ∧
    (lastSetProps (slideUp initState 0 []).2).get "y" = some (.num 100) ∧
    (some (Value.num 50) : Option Value) ≠ some (.num 100) := by
  refine ⟨by decide, by decide, by decide⟩

/-- The five-step horizontal shake sequence as the spec describes it: offsets
`-q, +q, -q, +q, 0`, each step lasting 0.1 time-units. -/
def fiveSteps (e : ℕ) (q : ℚ) : List TLStep :=
  [⟨e, [("x", .num (-q)), ("duration", .num (1/10))]⟩,
   ⟨e, [("x", .num q), ("duration", .num (1/10))]⟩,
   ⟨e, [("x", .num (-q)), ("duration", .num (1/10))]⟩,
   ⟨e, [("x", .num q), ("duration", .num (1/10))]⟩,
   ⟨e, [("x", .num 0), ("duration", .num (1/10))]⟩]

theorem map_stepIf_id (l : List Timeline) (i : ℕ)
    (hw : ∀ tl ∈ l, tl.id ≠ i) (f : Timeline → Timeline) :
    l.map (fun tl => if tl.id == i then f tl else tl) = l := by
  induction l with
  | nil => rfl
  | cons a as ih =>
      have ha : ¬((a.id == i) = true) := by
        simp only [beq_iff_eq]
        exact hw a (List.mem_cons_self a as)
      rw [List.map_cons, if_neg ha,
        ih (fun tl htl => hw tl (List.mem_cons_of_mem a htl))]

/-- C5. With a numeric nonzero `intensity` option `q` (or none, in which case
the default 10 applies), `shake` creates exactly one new timeline whose steps
are the five-step sequence `-q, +q, -q, +q, 0` on the horizontal offset with
each step lasting 0.1 time-units, returns its handle, submits no tween and no
set call, and a caller-supplied `duration` option has no effect at all. -/
theorem shake_five_steps (s : LibState) (e : ℕ) (o : Obj) (q : ℚ)
    (hfresh : ∀ tl ∈ s.engine.timelines, tl.id < s.engine.nextId)
    (hq : (o.get "intensity" = some (.num q) ∧ q ≠ 0) ∨
          (o.get "intensity" = none ∧ q = 10)) :
    (shake s e o).2.engine.timelines
        = s.engine.timelines ++
          [⟨s.engine.nextId, [], fiveSteps e q, [], false⟩] ∧
    (shake s e o).1 = Handle.timeline s.engine.nextId ∧
    (shake s e o).2.engine.tweens = s.engine.tweens ∧
    (shake s e o).2.engine.sets = s.engine.sets ∧
    (shake s e o).2.activeAnimations = s.activeAnimations ∧
    (∀ v : Value, shake s e (o ++ [("duration", v)]) = shake s e o) := by
  have hinty : o.orDefault "intensity" (.num 10) = .num q := by
    rcases hq with ⟨hget, hne⟩ | ⟨hget, rfl⟩
    · simp [Obj.orDefault, hget, Value.truthy, hne]
    · simp [Obj.orDefault, hget]
  have hne : ∀ tl ∈ s.engine.timelines, tl.id ≠ s.engine.nextId :=
    fun tl htl => Nat.ne_of_lt (hfresh tl htl)
  have key : ∀ (ts : List TLStep) (t : ℕ) (c : Obj),
      ((s.engine.timelines ++ [(⟨s.engine.nextId, [], ts, [], false⟩ : Timeline)]).map
        (fun tl => if tl.id == s.engine.nextId
          then { tl with steps := tl.steps ++ [⟨t, c⟩] } else tl))
      = s.engine.timelines ++
          [(⟨s.engine.nextId, [], ts ++ [⟨t, c⟩], [], false⟩ : Timeline)] := by
    intro ts t c
    rw [List.map_append, map_stepIf_id _ _ hne]
    simp
  refine ⟨?_, rfl, rfl, rfl, rfl, ?_⟩
  · simp only [shake, EngineState.gsapTimeline, EngineState.tlTo, hinty]
    rw [key, key, key, key, key]
    simp [fiveSteps, Value.negV]
  · intro v
    have hdur : (o ++ [("duration", v)]).orDefault "intensity" (.num 10)
        = o.orDefault "intensity" (.num 10) := by
      unfold Obj.orDefault
      rw [Obj.get_append, Obj.get_single]
      simp
    simp only [shake, hdur]

/-- Witness for C5: `shake` with intensity 5 on a fresh instance produces the
five steps `-5, +5, -5, +5, 0` of 0.1 each. -/
theorem shake_five_steps_witness :
    (shake initState 0 [("intensity", .num 5)]).2.engine.timelines
        = initState.engine.timelines ++ [⟨0, [], fiveSteps 0 5, [], false⟩] ∧
    (shake initState 0 [("intensity", .num 5)]).1 = Handle.timeline 0 ∧
    (shake initState 0 [("intensity", .num 5)]).2.engine.tweens
        = initState.engine.tweens ∧
    (shake initState 0 [("intensity", .num 5)]).2.engine.sets
        = initState.engine.sets ∧
    (shake initState 0 [("intensity", .num 5)]).2.activeAnimations
        = initState.activeAnimations ∧
    (∀ v : Value, shake initState 0 ([("intensity", .num 5)] ++ [("duration", v)])
        = shake initState 0 [("intensity", .num 5)]) :=
  shake_five_steps initState 0 [("intensity", .num 5)] 5
    (by intro tl htl; simp [initState] at htl)
    (Or.inl ⟨by decide, by norm_num⟩)

end GSAPLib
